import Mathlib

/-
Verification of the age-conditioned dataset-repair scripts.

The four Python scripts (correct_social_platforms.py, fix_job_types_by_age.py,
fix_teen_data.py, recalibrate_productivity_scores.py) are shallowly embedded
below.  CSV numeric cells are modelled as `Option ℚ` (missing/NaN = `none`),
string cells as `String`.  The pseudo-random generator is modelled as a stream
of rational draws together with a position; each call to the library samplers
consumes exactly one draw, in the same places the source consumes one.
Weighted categorical choice (`random.choices` / `np.random.choice` with `p`)
is modelled by inverse-CDF walking of the cumulative weights, and
`random.uniform` / `np.random.uniform` by `lo + u * (hi - lo)` with the unit
draw `u`.
-/

/-- A deterministic pseudo-random source: a fixed stream of draws and the
current position in it. -/
structure Rng where
  stream : ℕ → ℚ
  pos : ℕ

/-- Consume one draw from the generator. -/
def Rng.next (g : Rng) : ℚ × Rng := (g.stream g.pos, ⟨g.stream, g.pos + 1⟩)

/-- `random.uniform(lo, hi)` / `np.random.uniform(lo, hi)` with unit draw `u`. -/
def uniform (lo hi u : ℚ) : ℚ := lo + u * (hi - lo)

/-- Weighted categorical choice over (label, weight) pairs by inverse-CDF walk:
pick the first label whose cumulative weight exceeds the draw; the last label
absorbs the tail.  This is the sampling scheme of `random.choices(weights=...)`
and `np.random.choice(p=...)` for weight vectors summing to 1. -/
def wchoice : List (String × ℚ) → ℚ → String
  | [], _ => ""
  | [(l, _)], _ => l
  | (l, w) :: e :: rest, u => if u < w then l else wchoice (e :: rest) (u - w)

/-- Python's `int()` on a float: truncation toward zero. -/
def pyInt (q : ℚ) : ℤ := if 0 ≤ q then ⌊q⌋ else ⌈q⌉

/-- One dataset row.  Numeric fields are `Option ℚ` (`none` = empty cell/NaN). -/
structure Record where
  age : Option ℚ
  job_type : String
  social_platform_preference : String
  daily_social_media_time : Option ℚ
  actual_productivity_score : Option ℚ
  perceived_productivity_score : Option ℚ
  gender : String
deriving DecidableEq

/-- A record with every cell empty, used to build concrete test rows. -/
def rec0 : Record :=
  { age := none, job_type := "", social_platform_preference := ""
    daily_social_media_time := none, actual_productivity_score := none
    perceived_productivity_score := none, gender := "" }

/-- An all-zero draw stream, used to evaluate the passes on concrete rows. -/
def zeroRng : Rng := ⟨fun _ => 0, 0⟩

/-- A draw stream returning 1/2 forever, used to evaluate the passes on
concrete rows. -/
def halfRng : Rng := ⟨fun _ => 1/2, 0⟩

/-- Thread the generator through a list of records in order, applying the
per-record step to each. -/
def mapRng (f : Rng → Record → Record × Rng) : Rng → List Record → List Record × Rng
  | g, [] => ([], g)
  | g, r :: rs =>
    ((f g r).1 :: (mapRng f (f g r).2 rs).1, (mapRng f (f g r).2 rs).2)

namespace CorrectSocialPlatforms

/-- `AGE_PLATFORM_PROBABILITIES` of correct_social_platforms.py, as
(platform, weight) rows keyed by the age-group name. -/
def AGE_PLATFORM_PROBABILITIES (gk : String) : List (String × ℚ) :=
  if gk = "teen" then
    [("TikTok", 9/20), ("Instagram", 7/20), ("Twitter", 3/20), ("Facebook", 1/20)]
  else if gk = "young_adult" then
    [("Instagram", 2/5), ("TikTok", 3/10), ("Twitter", 1/5), ("Facebook", 1/10)]
  else if gk = "adult" then
    [("Facebook", 7/20), ("Instagram", 3/10), ("Twitter", 1/5), ("Telegram", 3/20)]
  else if gk = "middle_aged" then
    [("Facebook", 1/2), ("Instagram", 1/4), ("Twitter", 3/20), ("Telegram", 1/10)]
  else if gk = "mature_adult" then
    [("Facebook", 3/5), ("Instagram", 1/5), ("Twitter", 3/20), ("Telegram", 1/20)]
  else if gk = "senior" then
    [("Facebook", 7/10), ("Instagram", 3/20), ("Twitter", 1/10), ("Telegram", 1/20)]
  else []

/-- `get_age_group` of correct_social_platforms.py: half-open decade buckets
from 18 up, open-ended at 60. -/
def get_age_group (age : Option ℚ) : Option String :=
  match age with
  | none => none
  | some a =>
    if 18 ≤ a ∧ a < 20 then some "teen"
    else if 20 ≤ a ∧ a < 30 then some "young_adult"
    else if 30 ≤ a ∧ a < 40 then some "adult"
    else if 40 ≤ a ∧ a < 50 then some "middle_aged"
    else if 50 ≤ a ∧ a < 60 then some "mature_adult"
    else if 60 ≤ a then some "senior"
    else none

/-- `assign_platform_by_age`: empty/unbucketable age yields the empty string
(and consumes no draw); otherwise one weighted draw from the group's table. -/
def assign_platform_by_age (age : Option ℚ) (u : ℚ) : String :=
  match age with
  | none => ""
  | some a =>
    match get_age_group (some a) with
    | none => ""
    | some gk => wchoice (AGE_PLATFORM_PROBABILITIES gk) u

/-- The per-row body of `correct_csv_platforms`: when the age cell is nonempty
the platform column is overwritten with `assign_platform_by_age`'s result
(a weighted draw when the age buckets, the empty string when it does not);
when the age cell is empty the row passes through. -/
def correctRowR (g : Rng) (r : Record) : Record × Rng :=
  match r.age with
  | none => (r, g)
  | some a =>
    match get_age_group (some a) with
    | none => ({ r with social_platform_preference := "" }, g)
    | some gk =>
      let p := g.next
      ({ r with social_platform_preference := wchoice (AGE_PLATFORM_PROBABILITIES gk) p.1 }, p.2)

/-- `correct_csv_platforms`: the row body applied to every row in order. -/
def correct_csv_platforms (g : Rng) (rows : List Record) : List Record × Rng :=
  mapRng correctRowR g rows

end CorrectSocialPlatforms

namespace FixJobTypesByAge

/-- Labels/weights of the age 18-19 branch of `assign_realistic_job`. -/
def jobs_18_19 : List (String × ℚ) :=
  [("Student", 17/20), ("Unemployed", 1/10), ("IT", 3/100), ("Other", 1/50)]

/-- Labels/weights of the age 20-22 branch. -/
def jobs_20_22 : List (String × ℚ) :=
  [("Student", 13/20), ("Unemployed", 3/20), ("IT", 3/20), ("Other", 1/20)]

/-- Labels/weights of the age 23-24 branch. -/
def jobs_23_24 : List (String × ℚ) :=
  [("Student", 11/20), ("IT", 3/20), ("Finance", 2/25), ("Health", 1/20),
   ("Education", 1/20), ("Unemployed", 1/10), ("Other", 1/50)]

/-- Labels/weights of the age 25-29 branch. -/
def jobs_25_29 : List (String × ℚ) :=
  [("IT", 1/4), ("Finance", 1/5), ("Health", 3/20), ("Education", 3/20),
   ("Student", 1/10), ("Unemployed", 1/10), ("Other", 1/20)]

/-- Labels/weights of the age 30-39 branch. -/
def jobs_30_39 : List (String × ℚ) :=
  [("Finance", 1/4), ("IT", 1/5), ("Health", 9/50), ("Education", 3/20),
   ("Unemployed", 1/10), ("Student", 1/20), ("Other", 7/100)]

/-- Labels/weights of the age 40-49 branch. -/
def jobs_40_49 : List (String × ℚ) :=
  [("Finance", 7/25), ("Health", 1/5), ("IT", 9/50), ("Education", 9/50),
   ("Unemployed", 1/10), ("Student", 3/100), ("Other", 3/100)]

/-- Labels/weights of the age 50-59 branch. -/
def jobs_50_59 : List (String × ℚ) :=
  [("Finance", 1/4), ("Health", 11/50), ("Education", 1/5), ("IT", 3/20),
   ("Unemployed", 3/25), ("Student", 3/100), ("Other", 3/100)]

/-- Labels/weights of the age 60-65 branch. -/
def jobs_60_65 : List (String × ℚ) :=
  [("Unemployed", 2/5), ("Finance", 1/5), ("Health", 3/20), ("Education", 3/20),
   ("IT", 2/25), ("Student", 1/50)]

/-- Labels/weights of the final `else` branch (comment in the source says
"Age > 65 (if any)", but the branch catches every remaining integer age,
including ages below 18). -/
def jobs_else : List (String × ℚ) :=
  [("Unemployed", 3/5), ("Finance", 3/20), ("Health", 3/20), ("Education", 1/10)]

/-- `assign_realistic_job`: missing age yields the literal "Student" with no
draw; otherwise the age is truncated with `int()` and one weighted draw is
taken from the matching branch's table. -/
def assign_realistic_job (age : Option ℚ) (u : ℚ) : String :=
  match age with
  | none => "Student"
  | some a =>
    let n := pyInt a
    if n = 18 ∨ n = 19 then wchoice jobs_18_19 u
    else if n = 20 ∨ n = 21 ∨ n = 22 then wchoice jobs_20_22 u
    else if n = 23 ∨ n = 24 then wchoice jobs_23_24 u
    else if 25 ≤ n ∧ n ≤ 29 then wchoice jobs_25_29 u
    else if 30 ≤ n ∧ n ≤ 39 then wchoice jobs_30_39 u
    else if 40 ≤ n ∧ n ≤ 49 then wchoice jobs_40_49 u
    else if 50 ≤ n ∧ n ≤ 59 then wchoice jobs_50_59 u
    else if 60 ≤ n ∧ n ≤ 65 then wchoice jobs_60_65 u
    else wchoice jobs_else u

/-- `map_job_type_to_standard`: the fixed lookup translating the obsolete
labels Healthcare/Marketing/Manufacturing/Freelancer to "Other" and leaving
every other label unchanged.  (Defined in the source; `fix_job_types` never
calls it.) -/
def map_job_type_to_standard (job_type : String) : String :=
  if job_type = "Healthcare" ∨ job_type = "Marketing" ∨
     job_type = "Manufacturing" ∨ job_type = "Freelancer" then "Other"
  else job_type

/-- The per-row effect of `df[job_type] = df[age].apply(assign_realistic_job)`
inside `fix_job_types`: a missing age consumes no draw and writes "Student",
a present age consumes one draw. -/
def fixJobRowR (g : Rng) (r : Record) : Record × Rng :=
  match r.age with
  | none => ({ r with job_type := "Student" }, g)
  | some a =>
    let p := g.next
    ({ r with job_type := assign_realistic_job (some a) p.1 }, p.2)

/-- The per-record state of `fix_job_types` at the moment of the job-type
reassignment: the statements between reading the frame and the line
`df[job_type] = df[age].apply(assign_realistic_job)` (source lines 122-138)
only count and print, mutating no column, so the rows entering the
reassignment are the input rows themselves. -/
def fixJobTypesPreReassignment (rows : List Record) : List Record := rows

/-- `fix_job_types`: the reassignment applied to every row in order (the only
column mutation the source performs). -/
def fix_job_types (g : Rng) (rows : List Record) : List Record × Rng :=
  mapRng fixJobRowR g (fixJobTypesPreReassignment rows)

end FixJobTypesByAge

namespace FixTeenData

/-- `AGE_PLATFORM_PROBABILITIES` of fix_teen_data.py, as (platform, weight)
rows keyed by the teen age-group name. -/
def AGE_PLATFORM_PROBABILITIES (gk : String) : List (String × ℚ) :=
  if gk = "early_teen" then
    [("TikTok", 13/20), ("Instagram", 1/5), ("Snapchat", 1/10), ("Twitter", 3/100),
     ("Facebook", 1/50)]
  else if gk = "high_school" then
    [("Instagram", 9/20), ("TikTok", 7/20), ("Snapchat", 3/25), ("Twitter", 1/20),
     ("Facebook", 3/100)]
  else if gk = "college_freshman" then
    [("Instagram", 2/5), ("TikTok", 7/20), ("Twitter", 3/20), ("Snapchat", 1/20),
     ("Facebook", 1/20)]
  else []

/-- `SOCIAL_MEDIA_TIME_RANGES` plus the in-function default ranges of
`assign_social_media_time`: the (min, max) daily-hours interval for an
age group and platform, falling back to the group's default range when the
platform has no entry. -/
def timeRange (gk : String) (p : String) : ℚ × ℚ :=
  if gk = "early_teen" then
    if p = "TikTok" then (6, 9)
    else if p = "Instagram" then (9/2, 7)
    else if p = "Snapchat" then (7/2, 6)
    else if p = "Twitter" then (2, 9/2)
    else if p = "Facebook" then (2, 9/2)
    else (2, 9/2)
  else if gk = "high_school" then
    if p = "Instagram" then (5, 8)
    else if p = "TikTok" then (9/2, 15/2)
    else if p = "Snapchat" then (3, 11/2)
    else if p = "Twitter" then (3/2, 4)
    else if p = "Facebook" then (3/2, 4)
    else (3/2, 4)
  else
    if p = "TikTok" then (9/2, 8)
    else if p = "Instagram" then (7/2, 13/2)
    else if p = "Twitter" then (3/2, 4)
    else if p = "Snapchat" then (3/2, 4)
    else if p = "Facebook" then (3/2, 4)
    else (3/2, 4)

/-- `get_teen_age_group`: closed integer-bound ranges 13-14 / 15-17 / 18-19. -/
def get_teen_age_group (age : Option ℚ) : Option String :=
  match age with
  | none => none
  | some a =>
    if 13 ≤ a ∧ a ≤ 14 then some "early_teen"
    else if 15 ≤ a ∧ a ≤ 17 then some "high_school"
    else if 18 ≤ a ∧ a ≤ 19 then some "college_freshman"
    else none

/-- `assign_platform_by_teen_age`: `none` when the age does not bucket
(no draw), otherwise one weighted draw from the group's platform table. -/
def assign_platform_by_teen_age (age : Option ℚ) (u : ℚ) : Option String :=
  match get_teen_age_group age with
  | none => none
  | some gk => some (wchoice (AGE_PLATFORM_PROBABILITIES gk) u)

/-- `assign_social_media_time`: `none` when the age does not bucket or the
platform cell is empty; otherwise one uniform draw from the (group, platform)
time range. -/
def assign_social_media_time (age : Option ℚ) (platform : String) (u : ℚ) : Option ℚ :=
  match get_teen_age_group age with
  | none => none
  | some gk =>
    if platform = "" then none
    else
      let lohi := timeRange gk platform
      some (uniform lohi.1 lohi.2 u)

/-- The seven float ages `expand_teen_ages` redistributes over. -/
def teenAges : List ℚ := [13, 14, 15, 16, 17, 18, 19]

/-- The uniform categorical pick of `np.random.choice` without weights:
index by the scaled unit draw. -/
def uchoiceQ (items : List ℚ) (u : ℚ) : ℚ :=
  items.getD (Int.toNat ⌊u * items.length⌋) 0

/-- Per-row effect of `expand_teen_ages`: rows whose age is exactly 18.0 or
19.0 get a fresh age drawn uniformly from 13.0-19.0; all other rows are
outside the mask and untouched. -/
def expandRow (g : Rng) (r : Record) : Record × Rng :=
  match r.age with
  | none => (r, g)
  | some a =>
    if a = 18 ∨ a = 19 then
      let p := g.next
      ({ r with age := some (uchoiceQ teenAges p.1) }, p.2)
    else (r, g)

/-- Per-row effect of the platform loop of `update_teen_platforms_and_time`:
rows whose age is exactly one of 13.0-19.0 have the platform column
overwritten with `assign_platform_by_teen_age`'s draw (writing the missing
marker in the unreachable case where the masked age fails to bucket); other
rows are outside the mask and untouched. -/
def teenPlatformRow (g : Rng) (r : Record) : Record × Rng :=
  match r.age with
  | none => (r, g)
  | some a =>
    if a = 13 ∨ a = 14 ∨ a = 15 ∨ a = 16 ∨ a = 17 ∨ a = 18 ∨ a = 19 then
      match get_teen_age_group (some a) with
      | none => ({ r with social_platform_preference := "" }, g)
      | some gk =>
        let p := g.next
        ({ r with social_platform_preference := wchoice (AGE_PLATFORM_PROBABILITIES gk) p.1 },
         p.2)
    else (r, g)

/-- Per-row effect of the time loop of `update_teen_platforms_and_time`:
for masked rows, `assign_social_media_time` on the (new) platform; the time
column is written only when it returns a value. -/
def teenTimeRow (g : Rng) (r : Record) : Record × Rng :=
  match r.age with
  | none => (r, g)
  | some a =>
    if a = 13 ∨ a = 14 ∨ a = 15 ∨ a = 16 ∨ a = 17 ∨ a = 18 ∨ a = 19 then
      match get_teen_age_group (some a) with
      | none => (r, g)
      | some gk =>
        if r.social_platform_preference = "" then (r, g)
        else
          let p := g.next
          let lohi := timeRange gk r.social_platform_preference
          ({ r with daily_social_media_time := some (uniform lohi.1 lohi.2 p.1) }, p.2)
    else (r, g)

/-- The whole teen pass of fix_teen_data.py: age expansion, then the platform
loop, then the time loop, each sweeping the rows in order. -/
def fix_teen_data (g : Rng) (rows : List Record) : List Record × Rng :=
  let s1 := mapRng expandRow g rows
  let s2 := mapRng teenPlatformRow s1.2 s1.1
  mapRng teenTimeRow s2.2 s2.1

end FixTeenData

namespace RecalibrateProductivityScores

/-- `AGE_GROUP_GAPS` of recalibrate_productivity_scores.py:
(key, min age, max age, gap_min, gap_max), in dict insertion order. -/
def AGE_GROUP_GAPS : List (String × ℚ × ℚ × ℚ × ℚ) :=
  [("teen", 18, 19, 3/2, 5/2),
   ("young_adult", 20, 29, 1/2, 3/2),
   ("adult", 30, 39, 0, 1/2),
   ("middle_aged", 40, 55, 0, 4/5),
   ("senior", 56, 65, -1/2, 1)]

/-- The entry of `AGE_GROUP_GAPS` whose closed range contains the age,
walking the table in order (the loop body of `get_age_group`). -/
def findGapEntry (a : ℚ) : Option (String × ℚ × ℚ × ℚ × ℚ) :=
  AGE_GROUP_GAPS.find? (fun e => decide (e.2.1 ≤ a ∧ a ≤ e.2.2.1))

/-- `get_age_group` of recalibrate_productivity_scores.py. -/
def get_age_group (age : Option ℚ) : Option String :=
  match age with
  | none => none
  | some a => (findGapEntry a).map (fun e => e.1)

/-- The clamp of lines 173-176 of the source: the recalibrated perceived
score is `actual + gap` confined to [0, 10]. -/
def newPerceived (actual gap : ℚ) : ℚ := max 0 (min 10 (actual + gap))

/-- The scores `calculate_age_group_means` collects for one group key: the
actual scores of rows whose age cell is nonempty, buckets to that key, and
whose actual cell is nonempty. -/
def groupScores (rows : List Record) (gk : String) : List ℚ :=
  rows.filterMap (fun r =>
    match r.age with
    | none => none
    | some a =>
      if get_age_group (some a) = some gk then r.actual_productivity_score else none)

/-- `calculate_age_group_means`: the mean actual score per group key, absent
when the group collected no scores. -/
def calculate_age_group_means (rows : List Record) (gk : String) : Option ℚ :=
  let s := groupScores rows gk
  if s.length = 0 then none else some (s.sum / s.length)

/-- The per-row body of `recalibrate_productivity_scores`: missing or
unbucketable age passes through; a missing actual score is imputed from the
group mean when one exists (otherwise the row passes through); then one
uniform draw from the group's gap range produces the clamped new perceived
score. -/
def recalibRowR (means : String → Option ℚ) (g : Rng) (r : Record) : Record × Rng :=
  match r.age with
  | none => (r, g)
  | some a =>
    match findGapEntry a with
    | none => (r, g)
    | some e =>
      let actualAndRow : Option (ℚ × Record) :=
        match r.actual_productivity_score with
        | none =>
          match means e.1 with
          | none => none
          | some m => some (m, { r with actual_productivity_score := some m })
        | some x => some (x, r)
      match actualAndRow with
      | none => (r, g)
      | some ar =>
        let p := g.next
        let gap := uniform e.2.2.2.1 e.2.2.2.2 p.1
        ({ ar.2 with perceived_productivity_score := some (newPerceived ar.1 gap) }, p.2)

/-- `recalibrate_productivity_scores`: first pass computes the group means
from the input, second pass applies the row body to every row in order. -/
def recalibrate_productivity_scores (g : Rng) (rows : List Record) : List Record × Rng :=
  mapRng (recalibRowR (calculate_age_group_means rows)) g rows

end RecalibrateProductivityScores

/- ------------------------------------------------------------------ -/
/- Helper lemmas                                                       -/
/- ------------------------------------------------------------------ -/

/-- Weighted choice over a nonempty table always returns one of its labels. -/
theorem wchoice_mem : ∀ (ps : List (String × ℚ)) (u : ℚ), ps ≠ [] →
    wchoice ps u ∈ ps.map Prod.fst
  | [], _, h => absurd rfl h
  | [(l, _)], u, _ => by simp [wchoice]
  | (l, w) :: e :: rest, u, _ => by
    by_cases hu : u < w
    · simp [wchoice, hu]
    · have ih := wchoice_mem (e :: rest) (u - w) (List.cons_ne_nil e rest)
      simp only [wchoice, if_neg hu, List.map_cons, List.mem_cons]
      simp only [List.map_cons, List.mem_cons] at ih
      exact Or.inr ih

/-- A unit draw keeps the uniform sample inside the interval. -/
theorem uniform_mem (lo hi u : ℚ) (hlo : lo ≤ hi) (h0 : 0 ≤ u) (h1 : u ≤ 1) :
    lo ≤ uniform lo hi u ∧ uniform lo hi u ≤ hi := by
  unfold uniform
  constructor
  · nlinarith
  · nlinarith

/-- A pointwise guarantee of the per-row step holds between input and output
of the threaded sweep, record by record. -/
theorem mapRng_forall2 (f : Rng → Record → Record × Rng) (P : Record → Record → Prop)
    (h : ∀ g r, P r (f g r).1) : ∀ (g : Rng) (rs : List Record),
    List.Forall₂ P rs (mapRng f g rs).1
  | _, [] => List.Forall₂.nil
  | g, r :: rs => by
    simp only [mapRng]
    exact List.Forall₂.cons (h g r) (mapRng_forall2 f P h (f g r).2 rs)

/-- Pointwise relations between successive sweeps compose. -/
theorem forall2_comp {P Q R : Record → Record → Prop}
    (h : ∀ a b c, P a b → Q b c → R a c) :
    ∀ {l1 l2 l3 : List Record}, List.Forall₂ P l1 l2 → List.Forall₂ Q l2 l3 →
      List.Forall₂ R l1 l3 := by
  intro l1 l2 l3 h12
  induction h12 generalizing l3 with
  | nil =>
    intro h23
    cases h23
    exact List.Forall₂.nil
  | cons hab _ ih =>
    intro h23
    cases h23 with
    | cons hbc htl2 => exact List.Forall₂.cons (h _ _ _ hab hbc) (ih htl2)

/-- The threaded sweep processes an appended suffix with exactly the
generator state left by the prefix: draws happen in record order. -/
theorem mapRng_append (f : Rng → Record → Record × Rng) :
    ∀ (g : Rng) (xs ys : List Record),
    mapRng f g (xs ++ ys) =
      ((mapRng f g xs).1 ++ (mapRng f (mapRng f g xs).2 ys).1,
       (mapRng f (mapRng f g xs).2 ys).2)
  | _, [], _ => by simp [mapRng]
  | g, x :: xs, ys => by
    have ih := mapRng_append f (f g x).2 xs ys
    simp only [List.cons_append, mapRng, List.append_eq] at ih ⊢
    rw [ih]

/-- The four labels reachable for ages 18-22 avoid the three excluded ones. -/
theorem young_labels_excluded :
    ∀ s ∈ ["Student", "Unemployed", "IT", "Other"], s ∉ ["Finance", "Health", "Education"] := by
  decide

/-- The five teen platform labels are all distinct from "Telegram". -/
theorem teen_labels_no_telegram :
    ∀ s ∈ ["Instagram", "TikTok", "Snapchat", "Twitter", "Facebook"], s ≠ "Telegram" := by
  decide

/-- For ages truncating into 18-22, `assign_realistic_job` draws from the
18-19 or 20-22 table, whose labels are Student/Unemployed/IT/Other. -/
theorem assign_realistic_job_young_mem (a u : ℚ)
    (hn : pyInt a = 18 ∨ pyInt a = 19 ∨ pyInt a = 20 ∨ pyInt a = 21 ∨ pyInt a = 22) :
    FixJobTypesByAge.assign_realistic_job (some a) u ∈
      ["Student", "Unemployed", "IT", "Other"] := by
  have h18 : wchoice FixJobTypesByAge.jobs_18_19 u ∈
      ["Student", "Unemployed", "IT", "Other"] := by
    simpa [FixJobTypesByAge.jobs_18_19] using
      wchoice_mem FixJobTypesByAge.jobs_18_19 u (by simp [FixJobTypesByAge.jobs_18_19])
  have h20 : wchoice FixJobTypesByAge.jobs_20_22 u ∈
      ["Student", "Unemployed", "IT", "Other"] := by
    simpa [FixJobTypesByAge.jobs_20_22] using
      wchoice_mem FixJobTypesByAge.jobs_20_22 u (by simp [FixJobTypesByAge.jobs_20_22])
  simp only [FixJobTypesByAge.assign_realistic_job]
  rcases hn with h | h | h | h | h
  · rw [h, if_pos (by norm_num)]; exact h18
  · rw [h, if_pos (by norm_num)]; exact h18
  · rw [h, if_neg (by norm_num), if_pos (by norm_num)]; exact h20
  · rw [h, if_neg (by norm_num), if_pos (by norm_num)]; exact h20
  · rw [h, if_neg (by norm_num), if_pos (by norm_num)]; exact h20

/-- The platform-pass row body touches only `social_platform_preference`. -/
theorem correctRowR_frame (g : Rng) (r : Record) :
    (CorrectSocialPlatforms.correctRowR g r).1.age = r.age ∧
    (CorrectSocialPlatforms.correctRowR g r).1.job_type = r.job_type ∧
    (CorrectSocialPlatforms.correctRowR g r).1.daily_social_media_time =
      r.daily_social_media_time ∧
    (CorrectSocialPlatforms.correctRowR g r).1.actual_productivity_score =
      r.actual_productivity_score ∧
    (CorrectSocialPlatforms.correctRowR g r).1.perceived_productivity_score =
      r.perceived_productivity_score ∧
    (CorrectSocialPlatforms.correctRowR g r).1.gender = r.gender := by
  unfold CorrectSocialPlatforms.correctRowR
  rcases hr : r.age with _ | a
  · simp [hr]
  · rcases hg : CorrectSocialPlatforms.get_age_group (some a) with _ | gk <;> simp [hr, hg]

/-- The job-pass row body touches only `job_type`. -/
theorem fixJobRowR_frame (g : Rng) (r : Record) :
    (FixJobTypesByAge.fixJobRowR g r).1.age = r.age ∧
    (FixJobTypesByAge.fixJobRowR g r).1.social_platform_preference =
      r.social_platform_preference ∧
    (FixJobTypesByAge.fixJobRowR g r).1.daily_social_media_time =
      r.daily_social_media_time ∧
    (FixJobTypesByAge.fixJobRowR g r).1.actual_productivity_score =
      r.actual_productivity_score ∧
    (FixJobTypesByAge.fixJobRowR g r).1.perceived_productivity_score =
      r.perceived_productivity_score ∧
    (FixJobTypesByAge.fixJobRowR g r).1.gender = r.gender := by
  unfold FixJobTypesByAge.fixJobRowR
  rcases hr : r.age with _ | a <;> simp [hr]

/-- The age-expansion row body touches only `age`. -/
theorem expandRow_frame (g : Rng) (r : Record) :
    (FixTeenData.expandRow g r).1.job_type = r.job_type ∧
    (FixTeenData.expandRow g r).1.social_platform_preference =
      r.social_platform_preference ∧
    (FixTeenData.expandRow g r).1.daily_social_media_time = r.daily_social_media_time ∧
    (FixTeenData.expandRow g r).1.actual_productivity_score =
      r.actual_productivity_score ∧
    (FixTeenData.expandRow g r).1.perceived_productivity_score =
      r.perceived_productivity_score ∧
    (FixTeenData.expandRow g r).1.gender = r.gender := by
  unfold FixTeenData.expandRow
  rcases hr : r.age with _ | a
  · simp [hr]
  · by_cases h18 : a = 18 ∨ a = 19 <;> simp [hr, h18]

/-- The teen platform-loop row body touches only `social_platform_preference`. -/
theorem teenPlatformRow_frame (g : Rng) (r : Record) :
    (FixTeenData.teenPlatformRow g r).1.age = r.age ∧
    (FixTeenData.teenPlatformRow g r).1.job_type = r.job_type ∧
    (FixTeenData.teenPlatformRow g r).1.daily_social_media_time =
      r.daily_social_media_time ∧
    (FixTeenData.teenPlatformRow g r).1.actual_productivity_score =
      r.actual_productivity_score ∧
    (FixTeenData.teenPlatformRow g r).1.perceived_productivity_score =
      r.perceived_productivity_score ∧
    (FixTeenData.teenPlatformRow g r).1.gender = r.gender := by
  unfold FixTeenData.teenPlatformRow
  rcases hr : r.age with _ | a
  · simp [hr]
  · by_cases hm : a = 13 ∨ a = 14 ∨ a = 15 ∨ a = 16 ∨ a = 17 ∨ a = 18 ∨ a = 19
    · rcases hg : FixTeenData.get_teen_age_group (some a) with _ | gk <;> simp [hr, hm, hg]
    · simp [hr, hm]

/-- The teen time-loop row body touches only `daily_social_media_time`. -/
theorem teenTimeRow_frame (g : Rng) (r : Record) :
    (FixTeenData.teenTimeRow g r).1.age = r.age ∧
    (FixTeenData.teenTimeRow g r).1.job_type = r.job_type ∧
    (FixTeenData.teenTimeRow g r).1.social_platform_preference =
      r.social_platform_preference ∧
    (FixTeenData.teenTimeRow g r).1.actual_productivity_score =
      r.actual_productivity_score ∧
    (FixTeenData.teenTimeRow g r).1.perceived_productivity_score =
      r.perceived_productivity_score ∧
    (FixTeenData.teenTimeRow g r).1.gender = r.gender := by
  unfold FixTeenData.teenTimeRow
  rcases hr : r.age with _ | a
  · simp [hr]
  · by_cases hm : a = 13 ∨ a = 14 ∨ a = 15 ∨ a = 16 ∨ a = 17 ∨ a = 18 ∨ a = 19
    · rcases hg : FixTeenData.get_teen_age_group (some a) with _ | gk
      · simp [hr, hm, hg]
      · by_cases hp : r.social_platform_preference = "" <;> simp [hr, hm, hg, hp]
    · simp [hr, hm]

/-- The productivity-pass row body touches only the two score columns. -/
theorem recalibRowR_frame (means : String → Option ℚ) (g : Rng) (r : Record) :
    (RecalibrateProductivityScores.recalibRowR means g r).1.age = r.age ∧
    (RecalibrateProductivityScores.recalibRowR means g r).1.job_type = r.job_type ∧
    (RecalibrateProductivityScores.recalibRowR means g r).1.social_platform_preference =
      r.social_platform_preference ∧
    (RecalibrateProductivityScores.recalibRowR means g r).1.daily_social_media_time =
      r.daily_social_media_time ∧
    (RecalibrateProductivityScores.recalibRowR means g r).1.gender = r.gender := by
  unfold RecalibrateProductivityScores.recalibRowR
  rcases hr : r.age with _ | a
  · simp [hr]
  · rcases he : RecalibrateProductivityScores.findGapEntry a with _ | e
    · simp [hr, he]
    · rcases ha : r.actual_productivity_score with _ | x
      · rcases hm : means e.1 with _ | m <;> simp [hr, he, ha, hm]
      · simp [hr, he, ha]

/- ------------------------------------------------------------------ -/
/- Claims                                                              -/
/- ------------------------------------------------------------------ -/

/-- C1: after the job-type pass reassigns `job_type`, every record whose age
truncates to 18, 19, 20, 21 or 22 carries a `job_type` from
{Student, Unemployed, IT, Other} and hence none of Finance/Health/Education:
the 18-19 and 20-22 branches draw only from that four-label set. -/
theorem C1_young_ages_draw_only_student_set (g : Rng) (r : Record) (a : ℚ)
    (hage : r.age = some a)
    (hn : pyInt a = 18 ∨ pyInt a = 19 ∨ pyInt a = 20 ∨ pyInt a = 21 ∨ pyInt a = 22) :
    (FixJobTypesByAge.fixJobRowR g r).1.job_type ∈ ["Student", "Unemployed", "IT", "Other"] ∧
    (FixJobTypesByAge.fixJobRowR g r).1.job_type ∉ ["Finance", "Health", "Education"] := by
  have hj : (FixJobTypesByAge.fixJobRowR g r).1.job_type =
      FixJobTypesByAge.assign_realistic_job (some a) g.next.1 := by
    simp [FixJobTypesByAge.fixJobRowR, hage]
  rw [hj]
  have hmem := assign_realistic_job_young_mem a g.next.1 hn
  exact ⟨hmem, young_labels_excluded _ hmem⟩

/-- Witness for C1 at the concrete record with age 18.5 (truncating to 18). -/
theorem C1_young_ages_draw_only_student_set_witness :
    ({ rec0 with age := some (37/2) } : Record).age = some (37/2) ∧
    pyInt (37/2) = 18 ∧
    ((FixJobTypesByAge.fixJobRowR zeroRng { rec0 with age := some (37/2) }).1.job_type ∈
        ["Student", "Unemployed", "IT", "Other"] ∧
     (FixJobTypesByAge.fixJobRowR zeroRng { rec0 with age := some (37/2) }).1.job_type ∉
        ["Finance", "Health", "Education"]) :=
  ⟨rfl, by norm_num [pyInt],
   C1_young_ages_draw_only_student_set zeroRng { rec0 with age := some (37/2) } (37/2) rfl
     (Or.inl (by norm_num [pyInt]))⟩

/-- C5: a record with a missing age gets the fixed default `job_type`
"Student" from the job-type pass, whatever its original `job_type`, and no
draw is consumed (no bucketing happens). -/
theorem C5_missing_age_defaults_to_student (g : Rng) (r : Record) (u : ℚ)
    (h : r.age = none) :
    FixJobTypesByAge.assign_realistic_job none u = "Student" ∧
    (FixJobTypesByAge.fixJobRowR g r).1 = { r with job_type := "Student" } ∧
    (FixJobTypesByAge.fixJobRowR g r).2 = g := by
  refine ⟨rfl, ?_, ?_⟩ <;> simp [FixJobTypesByAge.fixJobRowR, h]

/-- Witness for C5 at a concrete record carrying job_type "Finance" and an
empty age cell. -/
theorem C5_missing_age_defaults_to_student_witness :
    ({ rec0 with job_type := "Finance" } : Record).age = none ∧
    (FixJobTypesByAge.assign_realistic_job none 0 = "Student" ∧
     (FixJobTypesByAge.fixJobRowR zeroRng { rec0 with job_type := "Finance" }).1 =
       { { rec0 with job_type := "Finance" } with job_type := "Student" } ∧
     (FixJobTypesByAge.fixJobRowR zeroRng { rec0 with job_type := "Finance" }).2 = zeroRng) :=
  ⟨rfl, C5_missing_age_defaults_to_student zeroRng { rec0 with job_type := "Finance" } 0 rfl⟩

/-- C7: a record with age 16 processed by the teen-platform step receives a
platform from the high_school bucket's label set
{Instagram, TikTok, Snapchat, Twitter, Facebook}, never "Telegram". -/
theorem C7_age16_gets_high_school_platform (g : Rng) (r : Record)
    (h : r.age = some 16) :
    (FixTeenData.teenPlatformRow g r).1.social_platform_preference ∈
      ["Instagram", "TikTok", "Snapchat", "Twitter", "Facebook"] ∧
    (FixTeenData.teenPlatformRow g r).1.social_platform_preference ≠ "Telegram" := by
  have hg : FixTeenData.get_teen_age_group (some 16) = some "high_school" := by
    norm_num [FixTeenData.get_teen_age_group]
  have hmem : (FixTeenData.teenPlatformRow g r).1.social_platform_preference ∈
      ["Instagram", "TikTok", "Snapchat", "Twitter", "Facebook"] := by
    have hw := wchoice_mem (FixTeenData.AGE_PLATFORM_PROBABILITIES "high_school") g.next.1
      (by simp [FixTeenData.AGE_PLATFORM_PROBABILITIES])
    norm_num [FixTeenData.teenPlatformRow, h, hg]
    simpa [FixTeenData.AGE_PLATFORM_PROBABILITIES] using hw
  exact ⟨hmem, teen_labels_no_telegram _ hmem⟩

/-- Witness for C7 at the spec's example record (age 16, platform Facebook). -/
theorem C7_age16_gets_high_school_platform_witness :
    ({ rec0 with age := some 16, social_platform_preference := "Facebook" } : Record).age =
      some 16 ∧
    ((FixTeenData.teenPlatformRow zeroRng
        { rec0 with age := some 16, social_platform_preference := "Facebook"
        }).1.social_platform_preference ∈
      ["Instagram", "TikTok", "Snapchat", "Twitter", "Facebook"] ∧
     (FixTeenData.teenPlatformRow zeroRng
        { rec0 with age := some 16, social_platform_preference := "Facebook"
        }).1.social_platform_preference ≠ "Telegram") :=
  ⟨rfl, C7_age16_gets_high_school_platform zeroRng
     { rec0 with age := some 16, social_platform_preference := "Facebook" } rfl⟩

/-- C4: field-scope preservation. For every record: the platform pass changes
only `social_platform_preference`; the job-type pass only `job_type`; the teen
pass only `age`, `social_platform_preference` and `daily_social_media_time`;
the productivity pass only the two score columns. -/
theorem C4_field_scope_preservation (g : Rng) (rows : List Record) :
    List.Forall₂ (fun r r' => r'.age = r.age ∧ r'.job_type = r.job_type ∧
        r'.daily_social_media_time = r.daily_social_media_time ∧
        r'.actual_productivity_score = r.actual_productivity_score ∧
        r'.perceived_productivity_score = r.perceived_productivity_score ∧
        r'.gender = r.gender)
      rows (CorrectSocialPlatforms.correct_csv_platforms g rows).1 ∧
    List.Forall₂ (fun r r' => r'.age = r.age ∧
        r'.social_platform_preference = r.social_platform_preference ∧
        r'.daily_social_media_time = r.daily_social_media_time ∧
        r'.actual_productivity_score = r.actual_productivity_score ∧
        r'.perceived_productivity_score = r.perceived_productivity_score ∧
        r'.gender = r.gender)
      rows (FixJobTypesByAge.fix_job_types g rows).1 ∧
    List.Forall₂ (fun r r' => r'.job_type = r.job_type ∧
        r'.actual_productivity_score = r.actual_productivity_score ∧
        r'.perceived_productivity_score = r.perceived_productivity_score ∧
        r'.gender = r.gender)
      rows (FixTeenData.fix_teen_data g rows).1 ∧
    List.Forall₂ (fun r r' => r'.age = r.age ∧ r'.job_type = r.job_type ∧
        r'.social_platform_preference = r.social_platform_preference ∧
        r'.daily_social_media_time = r.daily_social_media_time ∧
        r'.gender = r.gender)
      rows (RecalibrateProductivityScores.recalibrate_productivity_scores g rows).1 := by
  refine ⟨?_, ?_, ?_, ?_⟩
  · exact mapRng_forall2 _ _ correctRowR_frame g rows
  · exact mapRng_forall2 _ _ fixJobRowR_frame g rows
  · have h1 := mapRng_forall2 FixTeenData.expandRow
      (fun r r' => r'.job_type = r.job_type ∧
        r'.social_platform_preference = r.social_platform_preference ∧
        r'.daily_social_media_time = r.daily_social_media_time ∧
        r'.actual_productivity_score = r.actual_productivity_score ∧
        r'.perceived_productivity_score = r.perceived_productivity_score ∧
        r'.gender = r.gender)
      expandRow_frame g rows
    have h2 := mapRng_forall2 FixTeenData.teenPlatformRow
      (fun r r' => r'.age = r.age ∧ r'.job_type = r.job_type ∧
        r'.daily_social_media_time = r.daily_social_media_time ∧
        r'.actual_productivity_score = r.actual_productivity_score ∧
        r'.perceived_productivity_score = r.perceived_productivity_score ∧
        r'.gender = r.gender)
      teenPlatformRow_frame
      (mapRng FixTeenData.expandRow g rows).2 (mapRng FixTeenData.expandRow g rows).1
    have h3 := mapRng_forall2 FixTeenData.teenTimeRow
      (fun r r' => r'.age = r.age ∧ r'.job_type = r.job_type ∧
        r'.social_platform_preference = r.social_platform_preference ∧
        r'.actual_productivity_score = r.actual_productivity_score ∧
        r'.perceived_productivity_score = r.perceived_productivity_score ∧
        r'.gender = r.gender)
      teenTimeRow_frame
      (mapRng FixTeenData.teenPlatformRow (mapRng FixTeenData.expandRow g rows).2
        (mapRng FixTeenData.expandRow g rows).1).2
      (mapRng FixTeenData.teenPlatformRow (mapRng FixTeenData.expandRow g rows).2
        (mapRng FixTeenData.expandRow g rows).1).1
    have h12 : List.Forall₂ (fun r r' => r'.job_type = r.job_type ∧
        r'.daily_social_media_time = r.daily_social_media_time ∧
        r'.actual_productivity_score = r.actual_productivity_score ∧
        r'.perceived_productivity_score = r.perceived_productivity_score ∧
        r'.gender = r.gender)
        rows
        (mapRng FixTeenData.teenPlatformRow (mapRng FixTeenData.expandRow g rows).2
          (mapRng FixTeenData.expandRow g rows).1).1 := by
      refine forall2_comp ?_ h1 h2
      rintro a b c ⟨hjob, _, htime, hact, hperc, hgen⟩ ⟨_, hjob2, htime2, hact2, hperc2, hgen2⟩
      exact ⟨hjob2.trans hjob, htime2.trans htime, hact2.trans hact,
        hperc2.trans hperc, hgen2.trans hgen⟩
    refine forall2_comp ?_ h12 h3
    rintro a b c ⟨hjob, _, hact, hperc, hgen⟩ ⟨_, hjob3, _, hact3, hperc3, hgen3⟩
    exact ⟨hjob3.trans hjob, hact3.trans hact, hperc3.trans hperc, hgen3.trans hgen⟩
  · exact mapRng_forall2 _ _
      (recalibRowR_frame (RecalibrateProductivityScores.calculate_age_group_means rows)) g rows

/-- C9: each pass is a pure function of the seeded generator and the input
rows, so two runs with the same seed and same input coincide; and the sweep
consumes the generator in record order: a suffix is processed with exactly the
state the prefix leaves behind. -/
theorem C9_determinism_and_record_order :
    (∀ (g g' : Rng) (rs rs' : List Record), g = g' → rs = rs' →
       CorrectSocialPlatforms.correct_csv_platforms g rs =
         CorrectSocialPlatforms.correct_csv_platforms g' rs' ∧
       FixJobTypesByAge.fix_job_types g rs = FixJobTypesByAge.fix_job_types g' rs' ∧
       FixTeenData.fix_teen_data g rs = FixTeenData.fix_teen_data g' rs' ∧
       RecalibrateProductivityScores.recalibrate_productivity_scores g rs =
         RecalibrateProductivityScores.recalibrate_productivity_scores g' rs') ∧
    (∀ (g : Rng) (xs ys : List Record),
       (CorrectSocialPlatforms.correct_csv_platforms g (xs ++ ys)).1 =
         (CorrectSocialPlatforms.correct_csv_platforms g xs).1 ++
           (CorrectSocialPlatforms.correct_csv_platforms
             (CorrectSocialPlatforms.correct_csv_platforms g xs).2 ys).1 ∧
       (FixJobTypesByAge.fix_job_types g (xs ++ ys)).1 =
         (FixJobTypesByAge.fix_job_types g xs).1 ++
           (FixJobTypesByAge.fix_job_types (FixJobTypesByAge.fix_job_types g xs).2 ys).1) := by
  constructor
  · rintro g g' rs rs' rfl rfl
    exact ⟨rfl, rfl, rfl, rfl⟩
  · intro g xs ys
    exact ⟨congrArg Prod.fst (mapRng_append CorrectSocialPlatforms.correctRowR g xs ys),
      congrArg Prod.fst (mapRng_append FixJobTypesByAge.fixJobRowR g xs ys)⟩

/-- Witness for C9: two runs on one concrete row with the same stream agree. -/
theorem C9_determinism_and_record_order_witness :
    zeroRng = zeroRng ∧ ([rec0] : List Record) = [rec0] ∧
    CorrectSocialPlatforms.correct_csv_platforms zeroRng [rec0] =
      CorrectSocialPlatforms.correct_csv_platforms zeroRng [rec0] :=
  ⟨rfl, rfl,
   (C9_determinism_and_record_order.1 zeroRng zeroRng [rec0] [rec0] rfl rfl).1⟩

/-- Every configured (and default) teen time range is a proper interval. -/
theorem timeRange_le (gk p : String) :
    (FixTeenData.timeRange gk p).1 ≤ (FixTeenData.timeRange gk p).2 := by
  unfold FixTeenData.timeRange
  split_ifs <;> norm_num

/-- The clamp of the productivity pass always lands in [0, 10]. -/
theorem newPerceived_bounds (x y : ℚ) :
    0 ≤ RecalibrateProductivityScores.newPerceived x y ∧
    RecalibrateProductivityScores.newPerceived x y ≤ 10 := by
  unfold RecalibrateProductivityScores.newPerceived
  exact ⟨le_max_left 0 _, max_le (by norm_num) (min_le_left _ _)⟩

/-- The table walk of the productivity bucketizer, written as the equivalent
range if-chain. -/
theorem findGapEntry_spec (a : ℚ) :
    RecalibrateProductivityScores.findGapEntry a =
      if 18 ≤ a ∧ a ≤ 19 then some ("teen", 18, 19, 3/2, 5/2)
      else if 20 ≤ a ∧ a ≤ 29 then some ("young_adult", 20, 29, 1/2, 3/2)
      else if 30 ≤ a ∧ a ≤ 39 then some ("adult", 30, 39, 0, 1/2)
      else if 40 ≤ a ∧ a ≤ 55 then some ("middle_aged", 40, 55, 0, 4/5)
      else if 56 ≤ a ∧ a ≤ 65 then some ("senior", 56, 65, -1/2, 1)
      else none := by
  unfold RecalibrateProductivityScores.findGapEntry RecalibrateProductivityScores.AGE_GROUP_GAPS
  by_cases h1 : 18 ≤ a ∧ a ≤ 19 <;> by_cases h2 : 20 ≤ a ∧ a ≤ 29 <;>
    by_cases h3 : 30 ≤ a ∧ a ≤ 39 <;> by_cases h4 : 40 ≤ a ∧ a ≤ 55 <;>
    by_cases h5 : 56 ≤ a ∧ a ≤ 65 <;>
    simp [List.find?, h1, h2, h3, h4, h5]

/-- C6: range invariant of the continuous passes.  Every sampled teen
daily-social-media time lies inside the (age group, platform) range looked up
by `assign_social_media_time` (its default range included), and every row the
productivity pass transforms gets a perceived score inside [0, 10]. -/
theorem C6_sampled_values_in_range :
    (∀ (a : ℚ) (gk p : String) (u t : ℚ), 0 ≤ u → u ≤ 1 →
       FixTeenData.get_teen_age_group (some a) = some gk →
       FixTeenData.assign_social_media_time (some a) p u = some t →
       (FixTeenData.timeRange gk p).1 ≤ t ∧ t ≤ (FixTeenData.timeRange gk p).2) ∧
    (∀ (means : String → Option ℚ) (g : Rng) (r : Record),
       (RecalibrateProductivityScores.recalibRowR means g r).1 = r ∨
       ∃ v, (RecalibrateProductivityScores.recalibRowR means g r
             ).1.perceived_productivity_score = some v ∧ 0 ≤ v ∧ v ≤ 10) := by
  constructor
  · intro a gk p u t h0 h1 hg ht
    unfold FixTeenData.assign_social_media_time at ht
    rw [hg] at ht
    by_cases hp : p = ""
    · simp [hp] at ht
    · simp only [if_neg hp, Option.some.injEq] at ht
      have hb := uniform_mem (FixTeenData.timeRange gk p).1 (FixTeenData.timeRange gk p).2 u
        (timeRange_le gk p) h0 h1
      rwa [ht] at hb
  · intro means g r
    unfold RecalibrateProductivityScores.recalibRowR
    rcases hr : r.age with _ | a
    · simp [hr]
    · rcases he : RecalibrateProductivityScores.findGapEntry a with _ | e
      · simp [hr, he]
      · rcases ha : r.actual_productivity_score with _ | x
        · rcases hm : means e.1 with _ | m
          · simp [hr, he, ha, hm]
          · right
            refine ⟨RecalibrateProductivityScores.newPerceived m
              (uniform e.2.2.2.1 e.2.2.2.2 g.next.1), ?_, newPerceived_bounds _ _⟩
            simp [hr, he, ha, hm]
        · right
          refine ⟨RecalibrateProductivityScores.newPerceived x
            (uniform e.2.2.2.1 e.2.2.2.2 g.next.1), ?_, newPerceived_bounds _ _⟩
          simp [hr, he, ha]

/-- Concrete evaluation of the teen time sampler at age 16, TikTok, draw 0. -/
theorem assign_time_16_tiktok :
    FixTeenData.assign_social_media_time (some 16) "TikTok" 0 = some (9/2) := by
  norm_num [FixTeenData.assign_social_media_time, FixTeenData.get_teen_age_group,
    FixTeenData.timeRange, uniform]
  refine ⟨by decide, ?_⟩
  rw [if_neg (by decide), if_neg (by decide)]

/-- Witness for C6 at age 16, platform TikTok, draw 0: the sampled time is the
range's lower endpoint 9/2. -/
theorem C6_sampled_values_in_range_witness :
    (0:ℚ) ≤ 0 ∧ (0:ℚ) ≤ 1 ∧
    FixTeenData.get_teen_age_group (some 16) = some "high_school" ∧
    FixTeenData.assign_social_media_time (some 16) "TikTok" 0 = some (9/2) ∧
    ((FixTeenData.timeRange "high_school" "TikTok").1 ≤ 9/2 ∧
     (9:ℚ)/2 ≤ (FixTeenData.timeRange "high_school" "TikTok").2) :=
  ⟨le_refl 0, by norm_num, by decide, assign_time_16_tiktok,
   C6_sampled_values_in_range.1 16 "high_school" "TikTok" 0 (9/2)
     (le_refl 0) (by norm_num) (by decide) assign_time_16_tiktok⟩

/-- C10: the drawn gap is realized exactly when `actual + gap` already lies in
[0, 10]; clamping can push the realized gap below the group's gap_min (teen
row with actual 9.5 and drawn gap 2 realizes only 0.5 < 1.5) and, for a
negative actual score, above gap_max (actual -2 with drawn gap -1/2 realizes
2 > 1); the concrete teen row evaluates under the productivity pass to a
clamped perceived score of 10. -/
theorem C10_clamped_gap_can_leave_configured_range :
    (∀ actual gap : ℚ, 0 ≤ actual + gap → actual + gap ≤ 10 →
       RecalibrateProductivityScores.newPerceived actual gap - actual = gap) ∧
    ((3:ℚ)/2 ≤ 2 ∧ (2:ℚ) ≤ 5/2 ∧
      RecalibrateProductivityScores.newPerceived (19/2) 2 - 19/2 < 3/2) ∧
    ((-1:ℚ)/2 ≤ -1/2 ∧ (-1:ℚ)/2 ≤ 1 ∧
      1 < RecalibrateProductivityScores.newPerceived (-2) (-1/2) - (-2)) ∧
    ((RecalibrateProductivityScores.recalibRowR (fun _ => none) halfRng
        { rec0 with age := some 18, actual_productivity_score := some (19/2) }
      ).1.perceived_productivity_score = some 10 ∧
     (10:ℚ) - 19/2 < 3/2) := by
  refine ⟨?_, ?_, ?_, ?_, by norm_num⟩
  · intro actual gap h0 h10
    unfold RecalibrateProductivityScores.newPerceived
    rw [min_eq_right h10, max_eq_right h0]
    ring
  · norm_num [RecalibrateProductivityScores.newPerceived, min_def, max_def]
  · norm_num [RecalibrateProductivityScores.newPerceived, min_def, max_def]
  · have hfind := findGapEntry_spec 18
    norm_num at hfind
    norm_num [RecalibrateProductivityScores.recalibRowR, hfind, halfRng, Rng.next, uniform,
      RecalibrateProductivityScores.newPerceived, min_def, max_def]

/-- Witness for C10: with actual 1 and gap 1 the sum stays in range, so the
realized gap equals the drawn gap. -/
theorem C10_clamped_gap_witness :
    (0:ℚ) ≤ 1 + 1 ∧ (1:ℚ) + 1 ≤ 10 ∧
    RecalibrateProductivityScores.newPerceived 1 1 - 1 = 1 :=
  ⟨by norm_num, by norm_num,
   C10_clamped_gap_can_leave_configured_range.1 1 1 (by norm_num) (by norm_num)⟩

/-- C2 as stated is false: a record with present age 10 (below every platform
bucket) has its platform overwritten with the empty string rather than kept,
and the job-type pass reassigns its job_type (the final else branch catches
ages below 18), here to "Unemployed". -/
theorem C2_counterexample :
    (CorrectSocialPlatforms.correctRowR zeroRng
        { rec0 with age := some 10, social_platform_preference := "Facebook"
        }).1.social_platform_preference = "" ∧
    "Facebook" ≠ "" ∧
    (FixJobTypesByAge.fixJobRowR zeroRng
        { rec0 with age := some 10, job_type := "Clerk" }).1.job_type = "Unemployed" ∧
    "Clerk" ≠ "Unemployed" := by
  refine ⟨by decide, by decide, ?_, by decide⟩
  have hj : (FixJobTypesByAge.fixJobRowR zeroRng
      { rec0 with age := some 10, job_type := "Clerk" }).1.job_type =
      FixJobTypesByAge.assign_realistic_job (some 10) 0 := rfl
  rw [hj]
  norm_num [FixJobTypesByAge.assign_realistic_job, pyInt, wchoice, FixJobTypesByAge.jobs_else]

/-- C2 amended: bucket-miss pass-through holds for the productivity pass and
for the teen pass (whose masks are the exact float ages 18/19 resp. 13-19);
but the platform pass overwrites the platform of a present-but-unbucketable
age with the empty string, and in the job-type pass every present age matches
a rule, an age truncating below 18 drawing from the final
{Unemployed, Finance, Health, Education} table. -/
theorem C2_amended_bucket_miss_behavior (g : Rng) (r : Record) (a : ℚ)
    (means : String → Option ℚ) (hage : r.age = some a) :
    (RecalibrateProductivityScores.findGapEntry a = none →
       RecalibrateProductivityScores.recalibRowR means g r = (r, g)) ∧
    (¬(a = 18 ∨ a = 19) → FixTeenData.expandRow g r = (r, g)) ∧
    (¬(a = 13 ∨ a = 14 ∨ a = 15 ∨ a = 16 ∨ a = 17 ∨ a = 18 ∨ a = 19) →
       FixTeenData.teenPlatformRow g r = (r, g) ∧ FixTeenData.teenTimeRow g r = (r, g)) ∧
    (CorrectSocialPlatforms.get_age_group (some a) = none →
       (CorrectSocialPlatforms.correctRowR g r).1 =
         { r with social_platform_preference := "" } ∧
       (CorrectSocialPlatforms.correctRowR g r).2 = g) ∧
    (pyInt a < 18 →
       (FixJobTypesByAge.fixJobRowR g r).1.job_type ∈
         ["Unemployed", "Finance", "Health", "Education"]) := by
  refine ⟨?_, ?_, ?_, ?_, ?_⟩
  · intro hnone
    unfold RecalibrateProductivityScores.recalibRowR
    simp [hage, hnone]
  · intro hne
    unfold FixTeenData.expandRow
    simp [hage, hne]
  · intro hne
    refine ⟨?_, ?_⟩
    · unfold FixTeenData.teenPlatformRow
      simp [hage, hne]
    · unfold FixTeenData.teenTimeRow
      simp [hage, hne]
  · intro hnone
    unfold CorrectSocialPlatforms.correctRowR
    refine ⟨?_, ?_⟩ <;> simp [hage, hnone]
  · intro hlt
    have hj : (FixJobTypesByAge.fixJobRowR g r).1.job_type =
        FixJobTypesByAge.assign_realistic_job (some a) g.next.1 := by
      simp [FixJobTypesByAge.fixJobRowR, hage]
    rw [hj]
    have hw := wchoice_mem FixJobTypesByAge.jobs_else g.next.1
      (by simp [FixJobTypesByAge.jobs_else])
    simp only [FixJobTypesByAge.assign_realistic_job]
    split_ifs with d1 d2 d3 d4 d5 d6 d7 d8
    · exact absurd d1 (by omega)
    · exact absurd d2 (by omega)
    · exact absurd d3 (by omega)
    · exact absurd d4 (by omega)
    · exact absurd d5 (by omega)
    · exact absurd d6 (by omega)
    · exact absurd d7 (by omega)
    · exact absurd d8 (by omega)
    · simpa [FixJobTypesByAge.jobs_else] using hw

/-- Witness for the amended C2 at the concrete record with age 10. -/
theorem C2_amended_bucket_miss_behavior_witness :
    ({ rec0 with age := some 10 } : Record).age = some 10 ∧
    RecalibrateProductivityScores.findGapEntry 10 = none ∧
    CorrectSocialPlatforms.get_age_group (some 10) = none ∧
    pyInt 10 < 18 ∧
    RecalibrateProductivityScores.recalibRowR (fun _ => none) zeroRng
      { rec0 with age := some 10 } = ({ rec0 with age := some 10 }, zeroRng) ∧
    (CorrectSocialPlatforms.correctRowR zeroRng { rec0 with age := some 10 }).1 =
      { { rec0 with age := some 10 } with social_platform_preference := "" } ∧
    (FixJobTypesByAge.fixJobRowR zeroRng { rec0 with age := some 10 }).1.job_type ∈
      ["Unemployed", "Finance", "Health", "Education"] := by
  have hfind : RecalibrateProductivityScores.findGapEntry 10 = none := by
    have h := findGapEntry_spec 10
    norm_num at h
    exact h
  have hc := C2_amended_bucket_miss_behavior zeroRng { rec0 with age := some 10 } 10
    (fun _ => none) rfl
  exact ⟨rfl, hfind, by decide, by norm_num [pyInt],
    hc.1 hfind, (hc.2.2.2.1 (by decide)).1, hc.2.2.2.2 (by norm_num [pyInt])⟩

/-- C3 as stated is false: the fractional age 19.5 lies inside the
productivity bucket set's overall domain [18, 65] yet maps to no group, and
14.5 lies inside the teen set's domain [13, 19] yet maps to no group. -/
theorem C3_counterexample :
    RecalibrateProductivityScores.get_age_group (some (39/2)) = none ∧
    (18:ℚ) ≤ 39/2 ∧ (39:ℚ)/2 ≤ 65 ∧
    FixTeenData.get_teen_age_group (some (29/2)) = none ∧
    (13:ℚ) ≤ 29/2 ∧ (29:ℚ)/2 ≤ 19 := by
  refine ⟨?_, by norm_num, by norm_num, ?_, by norm_num, by norm_num⟩
  · have h := findGapEntry_spec (39/2)
    norm_num at h
    simp [RecalibrateProductivityScores.get_age_group, h]
  · norm_num [FixTeenData.get_teen_age_group]

/-- C3 amended: the buckets never overlap (the productivity table's ranges
are pairwise disjoint, and the other bucketizers are first-match if-chains),
and the platform pass's half-open buckets cover all of [18, infinity); but
the closed integer-bound tables of the productivity and teen passes leave
fractional gaps: 19.5 and 14.5 map to no group. -/
theorem C3_amended_no_overlap_but_gaps :
    (∀ a : ℚ, 18 ≤ a → ∃ gk, CorrectSocialPlatforms.get_age_group (some a) = some gk) ∧
    (∀ a : ℚ, ∀ e1 ∈ RecalibrateProductivityScores.AGE_GROUP_GAPS,
       ∀ e2 ∈ RecalibrateProductivityScores.AGE_GROUP_GAPS,
       (e1.2.1 ≤ a ∧ a ≤ e1.2.2.1) → (e2.2.1 ≤ a ∧ a ≤ e2.2.2.1) → e1 = e2) ∧
    RecalibrateProductivityScores.get_age_group (some (39/2)) = none ∧
    FixTeenData.get_teen_age_group (some (29/2)) = none := by
  refine ⟨?_, ?_, ?_, ?_⟩
  · intro a ha
    simp only [CorrectSocialPlatforms.get_age_group]
    split_ifs with h1 h2 h3 h4 h5 h6
    · exact ⟨_, rfl⟩
    · exact ⟨_, rfl⟩
    · exact ⟨_, rfl⟩
    · exact ⟨_, rfl⟩
    · exact ⟨_, rfl⟩
    · exact ⟨_, rfl⟩
    · exfalso
      push_neg at h1 h2 h3 h4 h5 h6
      have k1 := h1 ha
      have k2 := h2 k1
      have k3 := h3 k2
      have k4 := h4 k3
      have k5 := h5 k4
      linarith
  · intro a e1 he1 e2 he2 hin1 hin2
    fin_cases he1 <;> fin_cases he2 <;> simp_all <;> linarith
  · have h := findGapEntry_spec (39/2)
    norm_num at h
    simp [RecalibrateProductivityScores.get_age_group, h]
  · norm_num [FixTeenData.get_teen_age_group]

/-- Witness for the amended C3: age 25 lands in a platform bucket. -/
theorem C3_amended_no_overlap_but_gaps_witness :
    (18:ℚ) ≤ 25 ∧ ∃ gk, CorrectSocialPlatforms.get_age_group (some 25) = some gk :=
  ⟨by norm_num, C3_amended_no_overlap_but_gaps.1 25 (by norm_num)⟩

/-- C8 as stated is false: a record carrying the obsolete label "Healthcare"
reaches the job-type reassignment untranslated, because `fix_job_types` never
invokes `map_job_type_to_standard` (the statements before the reassignment
only count and print). -/
theorem C8_counterexample :
    (FixJobTypesByAge.fixJobTypesPreReassignment
        [{ rec0 with age := some 30, job_type := "Healthcare" }]).map Record.job_type =
      ["Healthcare"] ∧
    FixJobTypesByAge.map_job_type_to_standard "Healthcare" = "Other" ∧
    "Healthcare" ≠ "Other" :=
  ⟨rfl, by decide, by decide⟩

/-- C8 amended: the fixed lookup `map_job_type_to_standard` exists and
translates exactly {Healthcare, Marketing, Manufacturing, Freelancer} to
"Other", but `fix_job_types` never applies it — the rows entering the
reassignment are the input rows; because the reassignment overwrites
`job_type` for every record, pre-normalizing would not change the output. -/
theorem C8_amended_normalization_defined_but_unused :
    (∀ j, (j = "Healthcare" ∨ j = "Marketing" ∨ j = "Manufacturing" ∨ j = "Freelancer") →
       FixJobTypesByAge.map_job_type_to_standard j = "Other") ∧
    (∀ j, ¬(j = "Healthcare" ∨ j = "Marketing" ∨ j = "Manufacturing" ∨ j = "Freelancer") →
       FixJobTypesByAge.map_job_type_to_standard j = j) ∧
    (∀ rows : List Record, FixJobTypesByAge.fixJobTypesPreReassignment rows = rows) ∧
    (∀ (g : Rng) (rows : List Record),
       FixJobTypesByAge.fix_job_types g
         (rows.map fun r =>
           { r with job_type := FixJobTypesByAge.map_job_type_to_standard r.job_type }) =
       FixJobTypesByAge.fix_job_types g rows) := by
  refine ⟨?_, ?_, fun _ => rfl, ?_⟩
  · intro j hj
    unfold FixJobTypesByAge.map_job_type_to_standard
    rw [if_pos hj]
  · intro j hj
    unfold FixJobTypesByAge.map_job_type_to_standard
    rw [if_neg hj]
  · intro g rows
    induction rows generalizing g with
    | nil => rfl
    | cons r rs ih =>
      have hrow : FixJobTypesByAge.fixJobRowR g
          { r with job_type := FixJobTypesByAge.map_job_type_to_standard r.job_type } =
          FixJobTypesByAge.fixJobRowR g r := by
        unfold FixJobTypesByAge.fixJobRowR
        rcases hage : r.age with _ | a <;> simp [hage]
      have htail := ih (FixJobTypesByAge.fixJobRowR g r).2
      simp only [FixJobTypesByAge.fix_job_types,
        FixJobTypesByAge.fixJobTypesPreReassignment] at htail ⊢
      simp only [List.map_cons, mapRng, hrow, htail]

/-- Witness for the amended C8 at the obsolete label "Marketing". -/
theorem C8_amended_normalization_witness :
    ("Marketing" = "Healthcare" ∨ "Marketing" = "Marketing" ∨
      "Marketing" = "Manufacturing" ∨ "Marketing" = "Freelancer") ∧
    FixJobTypesByAge.map_job_type_to_standard "Marketing" = "Other" :=
  ⟨Or.inr (Or.inl rfl),
   C8_amended_normalization_defined_but_unused.1 "Marketing" (Or.inr (Or.inl rfl))⟩
